import Mathlib

/-
Verification development for the ubuntu-image resumable state-machine engine
and its CLI driver (cmd/ubuntu-image/main.go).

The CLI driver (`executeStateMachine`, `main`) is embedded directly from
cmd/ubuntu-image/main.go.  The engine itself (Setup/Run/Teardown lifecycle,
state serializer, workspace lock, layout validation) lives in internal
packages whose sources are not part of this tree; those components are
modelled from the design document, as marked on each definition.
-/

deriving instance DecidableEq for Except

namespace UbuntuImage

/-- Modelled from the spec: the error taxonomy of §7 (the internal
statemachine package is not part of this source tree). -/
inductive EngineError
  | configError (msg : String)
  | stateVersionError (found : Nat)
  | corruptStateError (msg : String)
  | workspaceBusyError
  | stepExecutionError (stepName : String) (cause : String)
  | cleanupError (msg : String)
deriving DecidableEq, Repr

/-- Modelled from the spec: one Volume/Structure of the layout model (§3) —
a named partition/region with byte offset, size and bootable flag. -/
structure LayoutStructure where
  name : String
  offset : Nat
  size : Nat
  bootable : Bool
deriving DecidableEq, Repr

/-- Modelled from the spec: the immutable-after-Setup BuildConfiguration
(§3) — image type, output path, workspace path, layout description. -/
structure BuildConfiguration where
  imageType : String
  outputPath : String
  workspacePath : String
  layout : List LayoutStructure
deriving DecidableEq, Repr

/-- Modelled from the spec: the mutable WorkState threaded through step
execution (§3) — current step ordinal, ordered completed-step names, and
the configuration snapshot the run started with. -/
structure WorkState where
  stepOrdinal : Nat
  completedSteps : List String
  configSnapshot : BuildConfiguration
deriving DecidableEq, Repr

/-- Modelled from the spec: an atom of the on-disk serialized form produced
by the State Serializer (§4.3); the concrete gob encoding is abstracted as
a token stream. -/
inductive SerToken
  | nat (n : Nat)
  | str (s : String)
deriving DecidableEq, Repr

/-- Modelled from the spec: the PersistedStateRecord (§3, §6) — build mode,
current step ordinal, completed step names and the configuration
snapshot.  The schema version tag is affixed by the serializer. -/
structure PersistedStateRecord where
  buildMode : String
  stepOrdinal : Nat
  completedStepNames : List String
  configSnapshot : BuildConfiguration
deriving DecidableEq, Repr

/-- Modelled from the spec: the schema version the serializer stamps on
every record it writes (§4.3, §6). -/
def currentSchemaVersion : Nat := 1

/-- Modelled from the spec: serialized form of one layout structure. -/
def encodeStructure (s : LayoutStructure) : List SerToken :=
  [SerToken.str s.name, SerToken.nat s.offset, SerToken.nat s.size,
   SerToken.nat (if s.bootable then 1 else 0)]

/-- Modelled from the spec: serialized bodies of a structure list. -/
def encodeStructuresBody : List LayoutStructure → List SerToken
  | [] => []
  | s :: rest => encodeStructure s ++ encodeStructuresBody rest

/-- Modelled from the spec: serialized form of a configuration snapshot. -/
def encodeConfig (c : BuildConfiguration) : List SerToken :=
  SerToken.str c.imageType :: SerToken.str c.outputPath ::
    SerToken.str c.workspacePath :: SerToken.nat c.layout.length ::
    encodeStructuresBody c.layout

/-- Modelled from the spec: `save(record)` of the State Serializer (§4.3) —
serializes the record, stamped with the current schema version. -/
def save (r : PersistedStateRecord) : List SerToken :=
  SerToken.nat currentSchemaVersion :: SerToken.str r.buildMode ::
    SerToken.nat r.stepOrdinal :: SerToken.nat r.completedStepNames.length ::
    (r.completedStepNames.map SerToken.str ++ encodeConfig r.configSnapshot)

/-- Modelled from the spec: deserializer for a counted list of strings. -/
def decodeStrs : Nat → List SerToken → Option (List String × List SerToken)
  | 0, ts => some ([], ts)
  | n + 1, SerToken.str s :: ts =>
    match decodeStrs n ts with
    | none => none
    | some (l, ts2) => some (s :: l, ts2)
  | _ + 1, _ => none

/-- Modelled from the spec: deserializer for one layout structure. -/
def decodeStructure : List SerToken → Option (LayoutStructure × List SerToken)
  | SerToken.str name :: SerToken.nat off :: SerToken.nat sz ::
      SerToken.nat b :: rest =>
    some ({ name := name, offset := off, size := sz, bootable := b == 1 }, rest)
  | _ => none

/-- Modelled from the spec: deserializer for a counted structure list. -/
def decodeStructs : Nat → List SerToken → Option (List LayoutStructure × List SerToken)
  | 0, ts => some ([], ts)
  | n + 1, ts =>
    match decodeStructure ts with
    | none => none
    | some (s, ts1) =>
      match decodeStructs n ts1 with
      | none => none
      | some (l, ts2) => some (s :: l, ts2)

/-- Modelled from the spec: deserializer for a configuration snapshot. -/
def decodeConfig : List SerToken → Option (BuildConfiguration × List SerToken)
  | SerToken.str it :: SerToken.str op :: SerToken.str wp ::
      SerToken.nat n :: rest =>
    match decodeStructs n rest with
    | none => none
    | some (l, ts2) =>
      some ({ imageType := it, outputPath := op, workspacePath := wp,
              layout := l }, ts2)
  | _ => none

/-- Modelled from the spec: `load()` of the State Serializer (§4.3) —
fails with `StateVersionError` on an unrecognized schema version and with
`CorruptStateError` on a malformed file. -/
def load (ts : List SerToken) : Except EngineError PersistedStateRecord :=
  match ts with
  | SerToken.nat v :: rest =>
    if v = currentSchemaVersion then
      match rest with
      | SerToken.str bm :: SerToken.nat ord :: SerToken.nat n :: rest2 =>
        match decodeStrs n rest2 with
        | none => Except.error (EngineError.corruptStateError "bad step list")
        | some (names, rest3) =>
          match decodeConfig rest3 with
          | none => Except.error (EngineError.corruptStateError "bad config")
          | some (cfg, rest4) =>
            if rest4 = [] then
              Except.ok { buildMode := bm, stepOrdinal := ord,
                          completedStepNames := names, configSnapshot := cfg }
            else Except.error (EngineError.corruptStateError "trailing data")
      | _ => Except.error (EngineError.corruptStateError "malformed record")
    else Except.error (EngineError.stateVersionError v)
  | _ => Except.error (EngineError.corruptStateError "missing version tag")

/-- Modelled from the spec: the observable state of one workspace directory
(§3, §5) — who holds the WorkspaceLock (a live run id), whether the
directory has been created, the contents of the persisted state file, and
whether the disk image file exists. -/
structure Workspace where
  lockHeldBy : Option Nat
  dirCreated : Bool
  persisted : Option (List SerToken)
  imageFileExists : Bool
deriving DecidableEq, Repr

/-- Modelled from the spec: the outcome of one step body — the extended
work state plus whether the step created the disk image file (step side
effects are confined to the workspace, §3; the persisted record is written
only by the engine, §5). -/
structure StepOut where
  st : WorkState
  createsImage : Bool

/-- Modelled from the spec: one StepDefinition (§3) — a name unique within
its catalog and a pure function over (Configuration, WorkState). -/
structure Step where
  name : String
  fn : BuildConfiguration → WorkState → Except String StepOut

/-- Modelled from the spec: the PersistedStateRecord snapshotting a given
work state (§3, §6). -/
def recordOf (st : WorkState) : PersistedStateRecord :=
  { buildMode := st.configSnapshot.imageType, stepOrdinal := st.stepOrdinal,
    completedStepNames := st.completedSteps, configSnapshot := st.configSnapshot }

/-- Modelled from the spec: the step ordinal recorded in the workspace's
persisted state file, when that file is present and loadable. -/
def persistedOrdinal (ws : Workspace) : Option Nat :=
  match ws.persisted with
  | none => none
  | some ts =>
    match load ts with
    | Except.error _ => none
    | Except.ok r => some r.stepOrdinal

/-- Modelled from the spec: the work state after one successful step (§4.1)
— the step's name is appended to completed-steps and the ordinal advances. -/
def advanceState (s : Step) (out : StepOut) (ord : Nat) : WorkState :=
  { stepOrdinal := ord + 1,
    completedSteps := out.st.completedSteps ++ [s.name],
    configSnapshot := out.st.configSnapshot }

/-- Modelled from the spec: the workspace after one successful step (§4.1)
— the step's filesystem effect is applied and the whole work state is
durably persisted before the next step starts. -/
def checkpointWs (ws : Workspace) (out : StepOut) (st2 : WorkState) : Workspace :=
  { lockHeldBy := ws.lockHeldBy, dirCreated := ws.dirCreated,
    persisted := some (save (recordOf st2)),
    imageFileExists := ws.imageFileExists || out.createsImage }

/-- Modelled from the spec: the iteration core of `Run()` (§4.1).  Walks
the remaining steps, invoking each function; on success appends the step
name to completed-steps, advances the ordinal and persists the whole work
state before proceeding; on failure stops immediately with a
`StepExecutionError` naming the failed step and wrapping the cause,
without advancing or persisting.  Also returns the list of step ordinals
that were invoked (the spec's step-invocation counter, §8). -/
def runAux (cfg : BuildConfiguration) (steps : List Step) (ord : Nat)
    (st : WorkState) (ws : Workspace) :
    Except EngineError WorkState × List Nat × Workspace :=
  match steps with
  | [] => (Except.ok st, [], ws)
  | s :: rest =>
    match s.fn cfg st with
    | Except.error cause =>
      (Except.error (EngineError.stepExecutionError s.name cause), [ord], ws)
    | Except.ok out =>
      ((runAux cfg rest (ord + 1) (advanceState s out ord)
          (checkpointWs ws out (advanceState s out ord))).1,
       ord :: (runAux cfg rest (ord + 1) (advanceState s out ord)
          (checkpointWs ws out (advanceState s out ord))).2.1,
       (runAux cfg rest (ord + 1) (advanceState s out ord)
          (checkpointWs ws out (advanceState s out ord))).2.2)

/-- Modelled from the spec: `Run()` (§4.1) — iterates the selected catalog
starting at the work state's current step ordinal. -/
def run (cfg : BuildConfiguration) (catalog : List Step) (st : WorkState)
    (ws : Workspace) : Except EngineError WorkState × List Nat × Workspace :=
  runAux cfg (catalog.drop st.stepOrdinal) st.stepOrdinal st ws

/-- Modelled from the spec: whether two structures' [offset, offset+size)
ranges overlap (§3 invariant). -/
def structuresOverlap (a b : LayoutStructure) : Bool :=
  decide (a.offset < b.offset + b.size) && decide (b.offset < a.offset + a.size)

/-- Modelled from the spec: whether some pair of structures overlaps. -/
def hasOverlap : List LayoutStructure → Bool
  | [] => false
  | s :: rest => rest.any (fun t => structuresOverlap s t) || hasOverlap rest

/-- Modelled from the spec: layout validation (§4.4) — rejects overlapping
ranges and layouts without a bootable structure, as `ConfigError`. -/
def validateLayout (l : List LayoutStructure) : Except EngineError Unit :=
  if hasOverlap l then
    Except.error (EngineError.configError "overlapping volume structures")
  else if l.any (fun s => s.bootable) then Except.ok ()
  else Except.error (EngineError.configError "no bootable structure")

/-- Modelled from the spec: `Setup(configuration)` (§4.1) — validates the
configuration; fails with `WorkspaceBusyError` when the WorkspaceLock is
held by a live run; on resume loads the persisted record and fails with
`ConfigError` when the immutable fields (image type, output path, layout
description) of the loaded snapshot differ from the current invocation's;
without resume discards any stale record and starts at ordinal 0.  The
returned workspace reflects every mutation Setup performed; on failure the
workspace is returned unchanged. -/
def setup (rid : Nat) (cfg : BuildConfiguration) (resume : Bool)
    (ws : Workspace) : Except EngineError WorkState × Workspace :=
  match validateLayout cfg.layout with
  | Except.error e => (Except.error e, ws)
  | Except.ok _ =>
    if ws.lockHeldBy.isSome then (Except.error EngineError.workspaceBusyError, ws)
    else if resume then
      match ws.persisted with
      | none =>
        (Except.error (EngineError.corruptStateError "no state to resume"), ws)
      | some ts =>
        match load ts with
        | Except.error e => (Except.error e, ws)
        | Except.ok r =>
          if r.configSnapshot.imageType = cfg.imageType ∧
             r.configSnapshot.outputPath = cfg.outputPath ∧
             r.configSnapshot.layout = cfg.layout then
            (Except.ok { stepOrdinal := r.stepOrdinal,
                         completedSteps := r.completedStepNames,
                         configSnapshot := cfg },
             { ws with lockHeldBy := some rid, dirCreated := true })
          else
            (Except.error (EngineError.configError "configuration drift on resume"), ws)
    else
      (Except.ok { stepOrdinal := 0, completedSteps := [], configSnapshot := cfg },
       { ws with lockHeldBy := some rid, dirCreated := true, persisted := none })

/-- Modelled from the spec: the Setup-then-Run composition the CLI driver
performs (§2 control flow): a Setup failure stops the pipeline before any
step — and hence before any disk image creation — runs. -/
def buildPipeline (rid : Nat) (cfg : BuildConfiguration) (resume : Bool)
    (catalog : List Step) (ws : Workspace) :
    Except EngineError WorkState × Workspace :=
  match setup rid cfg resume ws with
  | (Except.error e, ws1) => (Except.error e, ws1)
  | (Except.ok st, ws1) =>
    match run cfg catalog st ws1 with
    | (res, _, ws2) => (res, ws2)

/-- The two concrete state-machine kinds `executeStateMachine` can
construct (cmd/ubuntu-image/main.go: SnapStateMachine, ClassicStateMachine). -/
inductive SmKind
  | snap
  | classic
deriving DecidableEq, Repr

/-- The three lifecycle phases the driver invokes on the state machine
interface (cmd/ubuntu-image/main.go lines 89-105). -/
inductive Phase
  | setupPhase
  | runPhase
  | teardownPhase
deriving DecidableEq, Repr

/-- The outcomes the engine's three lifecycle methods would report if
invoked; `executeStateMachine` is a pure function of these. -/
structure EnginePhaseResults where
  setupErr : Option String
  runErr : Option String
  teardownErr : Option String
deriving DecidableEq, Repr

/-- Observable behaviour of one `executeStateMachine` call: which concrete
state machine was stored in the `stateMachineInterface` variable (`none`
models the nil interface), whether the call dereferenced a nil interface
(undefined behaviour), which phases were invoked, the error messages
printed, and the exit status passed to `osExit` (`none` when the function
falls through to its end). -/
structure ExecResult where
  constructed : Option SmKind
  panicked : Bool
  phasesInvoked : List Phase
  printedErrors : List String
  exitCode : Option Nat
deriving DecidableEq, Repr

/-- The dispatch on `imageType` at the top of `executeStateMachine`
(main.go lines 74-86): `stateMachineInterface` is assigned only for
"snap" and "classic" and otherwise keeps its previous value. -/
def dispatchStateMachine (prev : Option SmKind) (imageType : String) :
    Option SmKind :=
  if imageType = "snap" then some SmKind.snap
  else if imageType = "classic" then some SmKind.classic
  else prev

/-- `executeStateMachine` (main.go lines 72-107): dispatches on the image
type, then calls Setup, Run and Teardown in order, printing the error and
exiting with status 1 at the first failure.  The package-level
`stateMachineInterface` starts out nil, so for an unrecognized image type
the Setup call is made on a nil interface — modelled as `panicked`. -/
def executeStateMachine (imageType : String) (ph : EnginePhaseResults) :
    ExecResult :=
  match dispatchStateMachine none imageType with
  | none =>
    { constructed := none, panicked := true, phasesInvoked := [],
      printedErrors := [], exitCode := none }
  | some k =>
    match ph.setupErr with
    | some e =>
      { constructed := some k, panicked := false,
        phasesInvoked := [Phase.setupPhase], printedErrors := [e],
        exitCode := some 1 }
    | none =>
      match ph.runErr with
      | some e =>
        { constructed := some k, panicked := false,
          phasesInvoked := [Phase.setupPhase, Phase.runPhase],
          printedErrors := [e], exitCode := some 1 }
      | none =>
        match ph.teardownErr with
        | some e =>
          { constructed := some k, panicked := false,
            phasesInvoked := [Phase.setupPhase, Phase.runPhase, Phase.teardownPhase],
            printedErrors := [e], exitCode := some 1 }
        | none =>
          { constructed := some k, panicked := false,
            phasesInvoked := [Phase.setupPhase, Phase.runPhase, Phase.teardownPhase],
            printedErrors := [], exitCode := none }

/-- How `parser.Parse()` in `main` (main.go line 139) can turn out: success,
a go-flags help request, a go-flags missing-command error, another go-flags
error, or an error that is not a `*flags.Error` (which `main` ignores). -/
inductive ParseOutcome
  | ok
  | errHelp
  | errCommandRequired
  | otherFlagsError
  | nonFlagsError
deriving DecidableEq, Repr

/-- The inputs `main` (main.go lines 109-201) branches on: the parse
outcome, the Resume and Version options, the build-time `Version`
variable, the `SNAP_VERSION` environment variable, the active subcommand
(if any) and the captured stderr text.  Stream capture itself is assumed
to succeed. -/
structure MainInput where
  parseErr : ParseOutcome
  resume : Bool
  version : Bool
  buildVersion : String
  snapVersionEnv : String
  activeCommand : Option String
  capturedStderr : String
deriving DecidableEq, Repr

/-- Where one `main` invocation ends up: printing captured help and exiting
0, printing captured stderr and exiting 1 on a missing command, exiting 1
on another flags error, printing the version and exiting 0, or proceeding
into `executeStateMachine` with the given image type. -/
inductive MainOutcome
  | exitHelp
  | exitCmdRequired (stderr : String)
  | exitFlagsError
  | exitVersion (v : String)
  | runStateMachine (imageType : String)
deriving DecidableEq, Repr

/-- The exit status each `main` outcome passes to `osExit` (`none` when
control proceeds into `executeStateMachine`). -/
def mainExitCode : MainOutcome → Option Nat
  | MainOutcome.exitHelp => some 0
  | MainOutcome.exitCmdRequired _ => some 1
  | MainOutcome.exitFlagsError => some 1
  | MainOutcome.exitVersion _ => some 0
  | MainOutcome.runStateMachine _ => none

/-- Whether a `main` outcome is an error exit (status 1). -/
def isErrorExit : MainOutcome → Bool
  | MainOutcome.exitCmdRequired _ => true
  | MainOutcome.exitFlagsError => true
  | _ => false

/-- Whether a `main` outcome reached state machine construction. -/
def smConstructed : MainOutcome → Bool
  | MainOutcome.runStateMachine _ => true
  | _ => false

/-- The image type `main` hands to `executeStateMachine` (main.go lines
195-197): the active subcommand's name when a subcommand was selected,
otherwise the zero value of the package-level `imageType`. -/
def imageTypeOf (i : MainInput) : String :=
  match i.activeCommand with
  | some n => n
  | none => ""

/-- The tail of `main` after the parse-error handling (main.go lines
184-201): print the version — falling back to `SNAP_VERSION` when the
build-time `Version` is empty — and exit 0 when requested, else proceed to
`executeStateMachine`. -/
def afterParse (i : MainInput) : MainOutcome :=
  if i.version then
    MainOutcome.exitVersion
      (if i.buildVersion = "" then i.snapVersionEnv else i.buildVersion)
  else MainOutcome.runStateMachine (imageTypeOf i)

/-- `main` (main.go lines 109-201), as a function of its branch inputs:
help exits 0; a missing-command error is tolerated exactly when Resume or
Version was given and otherwise prints the captured stderr and exits 1;
any other `*flags.Error` exits 1; a non-flags parse error is ignored. -/
def mainRun (i : MainInput) : MainOutcome :=
  match i.parseErr with
  | ParseOutcome.ok => afterParse i
  | ParseOutcome.errHelp => MainOutcome.exitHelp
  | ParseOutcome.errCommandRequired =>
    if !i.resume && !i.version then MainOutcome.exitCmdRequired i.capturedStderr
    else afterParse i
  | ParseOutcome.otherFlagsError => MainOutcome.exitFlagsError
  | ParseOutcome.nonFlagsError => afterParse i

/-- Fixture: a valid two-structure layout (disjoint ranges, one bootable). -/
def layoutW : List LayoutStructure :=
  [{ name := "system-boot", offset := 0, size := 4, bootable := true },
   { name := "rootfs", offset := 4, size := 8, bootable := false }]

/-- Fixture: a layout whose two structures' ranges overlap. -/
def layoutBadW : List LayoutStructure :=
  [{ name := "a", offset := 0, size := 4, bootable := true },
   { name := "b", offset := 2, size := 6, bootable := false }]

/-- Fixture: a valid snap-mode configuration. -/
def cfgW : BuildConfiguration :=
  { imageType := "snap", outputPath := "out.img", workspacePath := "work",
    layout := layoutW }

/-- Fixture: like `cfgW` but with a different output path. -/
def cfgOtherW : BuildConfiguration :=
  { imageType := "snap", outputPath := "other.img", workspacePath := "work",
    layout := layoutW }

/-- Fixture: a configuration with the overlapping layout. -/
def cfgBadW : BuildConfiguration :=
  { imageType := "snap", outputPath := "out.img", workspacePath := "work",
    layout := layoutBadW }

/-- Fixture: a step that succeeds without touching the image file. -/
def stepOkA : Step :=
  { name := "prepare", fn := fun _ st => Except.ok { st := st, createsImage := false } }

/-- Fixture: a step that succeeds and creates the disk image file. -/
def stepOkB : Step :=
  { name := "populate", fn := fun _ st => Except.ok { st := st, createsImage := true } }

/-- Fixture: a step that fails with an external-tool error. -/
def stepFailB : Step :=
  { name := "populate", fn := fun _ _ => Except.error "mount failed" }

/-- Fixture: a two-step catalog that succeeds end to end. -/
def catalogW : List Step := [stepOkA, stepOkB]

/-- Fixture: a two-step catalog whose second step fails. -/
def catalogFailW : List Step := [stepOkA, stepFailB]

/-- Fixture: a checkpoint record at ordinal 1 with step "prepare" done. -/
def recW : PersistedStateRecord :=
  { buildMode := "snap", stepOrdinal := 1, completedStepNames := ["prepare"],
    configSnapshot := cfgW }

/-- Fixture: a fresh checkpoint record at ordinal 0. -/
def rec0W : PersistedStateRecord :=
  { buildMode := "snap", stepOrdinal := 0, completedStepNames := [],
    configSnapshot := cfgW }

/-- Fixture: a checkpoint record whose snapshot has a drifted output path. -/
def recDriftW : PersistedStateRecord :=
  { buildMode := "snap", stepOrdinal := 1, completedStepNames := ["prepare"],
    configSnapshot := cfgOtherW }

/-- Fixture: a fresh workspace with no lock, no record, no image. -/
def wsFreshW : Workspace :=
  { lockHeldBy := none, dirCreated := false, persisted := none,
    imageFileExists := false }

/-- Fixture: an unlocked workspace holding the ordinal-1 checkpoint. -/
def wsResumeW : Workspace :=
  { lockHeldBy := none, dirCreated := true, persisted := some (save recW),
    imageFileExists := false }

/-- Fixture: `wsResumeW` as mutated by a successful resume Setup of run 7. -/
def wsRes1W : Workspace :=
  { lockHeldBy := some 7, dirCreated := true, persisted := some (save recW),
    imageFileExists := false }

/-- Fixture: a locked workspace holding the ordinal-0 checkpoint. -/
def wsRun0W : Workspace :=
  { lockHeldBy := some 7, dirCreated := true, persisted := some (save rec0W),
    imageFileExists := false }

/-- Fixture: an unlocked workspace holding the drifted-snapshot record. -/
def wsDriftW : Workspace :=
  { lockHeldBy := none, dirCreated := true, persisted := some (save recDriftW),
    imageFileExists := false }

/-- Fixture: the work state loaded by a resume at ordinal 1. -/
def stW : WorkState :=
  { stepOrdinal := 1, completedSteps := ["prepare"], configSnapshot := cfgW }

/-- Fixture: a fresh work state at ordinal 0. -/
def st0W : WorkState :=
  { stepOrdinal := 0, completedSteps := [], configSnapshot := cfgW }

/-- Fixture: phase results where Run fails and Teardown would also fail. -/
def phFailW : EnginePhaseResults :=
  { setupErr := none, runErr := some "run failure",
    teardownErr := some "cleanup failure" }

/-- Fixture: a main invocation whose parse fails for want of a command,
with neither the resume nor the version option given. -/
def c9InputW : MainInput :=
  { parseErr := ParseOutcome.errCommandRequired, resume := false,
    version := false, buildVersion := "1.0", snapVersionEnv := "",
    activeCommand := none, capturedStderr := "the usage text" }

/-- Fixture: version requested together with an invalid flag, so parsing
fails with a non-help, non-missing-command flags error. -/
def c10BadW : MainInput :=
  { parseErr := ParseOutcome.otherFlagsError, resume := false,
    version := true, buildVersion := "1.0", snapVersionEnv := "",
    activeCommand := none, capturedStderr := "" }

/-- Fixture: version requested on a clean parse, with the build-time
version empty and `SNAP_VERSION` set. -/
def c10GoodW : MainInput :=
  { parseErr := ParseOutcome.ok, resume := false, version := true,
    buildVersion := "", snapVersionEnv := "2.0",
    activeCommand := none, capturedStderr := "" }

theorem decodeStrs_encode (l : List String) (ts : List SerToken) :
    decodeStrs l.length (l.map SerToken.str ++ ts) = some (l, ts) := by
  induction l with
  | nil => rfl
  | cons s rest ih => simp [decodeStrs, ih]

theorem decodeStructure_encode (s : LayoutStructure) (ts : List SerToken) :
    decodeStructure (encodeStructure s ++ ts) = some (s, ts) := by
  cases s with
  | mk name off sz boot => cases boot <;> simp [encodeStructure, decodeStructure]

theorem decodeStructs_encode (l : List LayoutStructure) (ts : List SerToken) :
    decodeStructs l.length (encodeStructuresBody l ++ ts) = some (l, ts) := by
  induction l with
  | nil => rfl
  | cons s rest ih =>
    simp [decodeStructs, encodeStructuresBody, List.append_assoc,
          decodeStructure_encode, ih]

theorem decodeConfig_encode (c : BuildConfiguration) (ts : List SerToken) :
    decodeConfig (encodeConfig c ++ ts) = some (c, ts) := by
  cases c with
  | mk it op wp l => simp [encodeConfig, decodeConfig, decodeStructs_encode]

/-- Helper: the serializer round-trip identity, used throughout. -/
theorem loadSaveEq (r : PersistedStateRecord) : load (save r) = Except.ok r := by
  cases r with
  | mk bm ord names cfg =>
    have h1 : decodeStrs names.length
        (names.map SerToken.str ++ (encodeConfig cfg ++ [])) = some (names, encodeConfig cfg ++ []) :=
      decodeStrs_encode names (encodeConfig cfg ++ [])
    simp at h1
    have h2 : decodeConfig (encodeConfig cfg ++ []) = some (cfg, []) :=
      decodeConfig_encode cfg []
    simp at h2
    simp [save, load, currentSchemaVersion, h1, h2]

/-- Helper: every step ordinal `Run()`'s core invokes lies in
[ord, ord + remaining). -/
theorem runAux_inv_mem (cfg : BuildConfiguration) (steps : List Step) :
    ∀ (ord : Nat) (st : WorkState) (ws : Workspace) (i : Nat),
      i ∈ (runAux cfg steps ord st ws).2.1 → ord ≤ i ∧ i < ord + steps.length := by
  induction steps with
  | nil => intro ord st ws i h; simp [runAux] at h
  | cons s rest ih =>
    intro ord st ws i h
    rw [runAux] at h
    rcases hfn : s.fn cfg st with cause | out
    · rw [hfn] at h
      simp at h
      simp only [List.length_cons]
      omega
    · rw [hfn] at h
      simp only [List.mem_cons] at h
      simp only [List.length_cons]
      rcases h with h | h
      · omega
      · have := ih (ord + 1) (advanceState s out ord)
          (checkpointWs ws out (advanceState s out ord)) i h
        omega

/-- Helper: when `Run()`'s core succeeds it invoked exactly the ordinals
ord, ord+1, ..., ord + remaining - 1. -/
theorem runAux_ok_inv (cfg : BuildConfiguration) (steps : List Step) :
    ∀ (ord : Nat) (st : WorkState) (ws : Workspace) (stOut : WorkState),
      (runAux cfg steps ord st ws).1 = Except.ok stOut →
      (runAux cfg steps ord st ws).2.1 = List.range' ord steps.length := by
  induction steps with
  | nil => intro ord st ws stOut _; simp [runAux]
  | cons s rest ih =>
    intro ord st ws stOut h
    rw [runAux] at h ⊢
    rcases hfn : s.fn cfg st with cause | out
    · rw [hfn] at h; simp at h
    · rw [hfn] at h
      have hh : (runAux cfg rest (ord + 1) (advanceState s out ord)
          (checkpointWs ws out (advanceState s out ord))).1 = Except.ok stOut := by
        simpa using h
      have := ih (ord + 1) (advanceState s out ord)
        (checkpointWs ws out (advanceState s out ord)) stOut hh
      simp only [List.length_cons, List.range'_succ]
      simp [this]

/-- Helper: `Run()`'s core never moves the persisted checkpoint backwards. -/
theorem runAux_persisted_mono (cfg : BuildConfiguration) (steps : List Step) :
    ∀ (ord : Nat) (st : WorkState) (ws : Workspace),
      persistedOrdinal ws = some ord →
      ∃ m, persistedOrdinal (runAux cfg steps ord st ws).2.2 = some m ∧ ord ≤ m := by
  induction steps with
  | nil => intro ord st ws hp; exact ⟨ord, by simpa [runAux] using hp, Nat.le_refl ord⟩
  | cons s rest ih =>
    intro ord st ws hp
    rw [runAux]
    rcases hfn : s.fn cfg st with cause | out
    · exact ⟨ord, hp, Nat.le_refl ord⟩
    · have hp2 : persistedOrdinal (checkpointWs ws out (advanceState s out ord))
          = some (ord + 1) := by
        simp [persistedOrdinal, checkpointWs, loadSaveEq, recordOf, advanceState]
      obtain ⟨m, hm, hle⟩ := ih (ord + 1) (advanceState s out ord)
        (checkpointWs ws out (advanceState s out ord)) hp2
      exact ⟨m, hm, by omega⟩

/-- Helper: when `Run()`'s core fails it failed at some step j of the
remainder, returned a `StepExecutionError` naming that step and wrapping
its cause, invoked exactly the ordinals up to and including j, and left
the persisted checkpoint exactly at the failed step's ordinal. -/
theorem runAux_error_spec (cfg : BuildConfiguration) (steps : List Step) :
    ∀ (ord : Nat) (st : WorkState) (ws : Workspace) (e : EngineError)
      (inv : List Nat) (ws' : Workspace),
      persistedOrdinal ws = some ord →
      runAux cfg steps ord st ws = (Except.error e, inv, ws') →
      ∃ j, ∃ hj : j < steps.length, ∃ st1 cause,
        e = EngineError.stepExecutionError (steps.get ⟨j, hj⟩).name cause ∧
        (steps.get ⟨j, hj⟩).fn cfg st1 = Except.error cause ∧
        inv = List.range' ord (j + 1) ∧
        persistedOrdinal ws' = some (ord + j) := by
  induction steps with
  | nil =>
    intro ord st ws e inv ws' hp h
    simp [runAux] at h
  | cons s rest ih =>
    intro ord st ws e inv ws' hp h
    rw [runAux] at h
    rcases hfn : s.fn cfg st with cause | out
    · rw [hfn] at h
      simp at h
      obtain ⟨he, hinv, hws⟩ := h
      refine ⟨0, by simp, st, cause, ?_, ?_, ?_, ?_⟩
      · simp [he]
      · simpa using hfn
      · simp [hinv, List.range'_one]
      · rw [← hws]
        simpa using hp
    · rw [hfn] at h
      simp at h
      obtain ⟨h1, h2, h3⟩ := h
      have hp2 : persistedOrdinal (checkpointWs ws out (advanceState s out ord))
          = some (ord + 1) := by
        simp [persistedOrdinal, checkpointWs, loadSaveEq, recordOf, advanceState]
      obtain ⟨j, hj, st1, cause, hee, hfail, hiv, hpp⟩ :=
        ih (ord + 1) (advanceState s out ord)
          (checkpointWs ws out (advanceState s out ord)) e
          (runAux cfg rest (ord + 1) (advanceState s out ord)
            (checkpointWs ws out (advanceState s out ord))).2.1
          ws' hp2 (by rw [← h1, ← h3])
      refine ⟨j + 1, by simpa using Nat.succ_lt_succ hj, st1, cause, ?_, ?_, ?_, ?_⟩
      · simpa using hee
      · simpa using hfail
      · rw [← h2, hiv]
        simp [List.range'_succ]
      · have harith : ord + 1 + j = ord + (j + 1) := by omega
        rw [← harith]
        exact hpp

/-- C6: for every PersistedStateRecord, loading immediately after saving
returns a record whose step ordinal and completed-step-name list are
identical to the saved record's (save/load round-trip law). -/
theorem save_load_roundtrip (r : PersistedStateRecord) :
    ∃ r', load (save r) = Except.ok r' ∧
      r'.stepOrdinal = r.stepOrdinal ∧
      r'.completedStepNames = r.completedStepNames :=
  ⟨r, loadSaveEq r, rfl, rfl⟩

/-- C4: a layout that fails validation — here one with two structures whose
[offset, offset+size) ranges overlap — makes Setup fail with `ConfigError`
and the Setup-then-Run pipeline never creates the disk image file: for a
workspace without an image file, none exists afterwards either. -/
theorem invalid_layout_creates_no_image
    (rid : Nat) (cfg : BuildConfiguration) (resume : Bool)
    (catalog : List Step) (ws : Workspace)
    (hov : hasOverlap cfg.layout = true)
    (him : ws.imageFileExists = false) :
    (∃ msg, (buildPipeline rid cfg resume catalog ws).1 =
      Except.error (EngineError.configError msg)) ∧
    (buildPipeline rid cfg resume catalog ws).2.imageFileExists = false := by
  have hval : validateLayout cfg.layout =
      Except.error (EngineError.configError "overlapping volume structures") := by
    simp [validateLayout, hov]
  refine ⟨⟨"overlapping volume structures", ?_⟩, ?_⟩ <;>
    simp [buildPipeline, setup, hval, him]

/-- Witness for C4 at the overlapping fixture layout. -/
theorem invalid_layout_creates_no_image_witness :
    hasOverlap cfgBadW.layout = true ∧ wsFreshW.imageFileExists = false ∧
    ((∃ msg, (buildPipeline 7 cfgBadW false catalogW wsFreshW).1 =
       Except.error (EngineError.configError msg)) ∧
     (buildPipeline 7 cfgBadW false catalogW wsFreshW).2.imageFileExists = false) :=
  ⟨by decide, rfl,
   invalid_layout_creates_no_image 7 cfgBadW false catalogW wsFreshW (by decide) rfl⟩

/-- C5: a resume Setup whose loaded snapshot differs from the current
configuration in an immutable field (image type, output path or layout)
fails with `ConfigError` and mutates neither the workspace nor the
persisted state: the workspace is returned exactly as it was. -/
theorem resume_config_drift_rejected
    (rid : Nat) (cfg : BuildConfiguration) (ws : Workspace)
    (ts : List SerToken) (r : PersistedStateRecord)
    (hval : validateLayout cfg.layout = Except.ok ())
    (hlock : ws.lockHeldBy = none)
    (hts : ws.persisted = some ts)
    (hload : load ts = Except.ok r)
    (hdrift : ¬(r.configSnapshot.imageType = cfg.imageType ∧
                r.configSnapshot.outputPath = cfg.outputPath ∧
                r.configSnapshot.layout = cfg.layout)) :
    (setup rid cfg true ws).1 =
      Except.error (EngineError.configError "configuration drift on resume") ∧
    (setup rid cfg true ws).2 = ws := by
  constructor <;> simp [setup, hval, hlock, hts, hload, hdrift]

/-- Witness for C5: resuming with a snapshot whose output path differs. -/
theorem resume_config_drift_rejected_witness :
    validateLayout cfgW.layout = Except.ok () ∧
    wsDriftW.lockHeldBy = none ∧
    wsDriftW.persisted = some (save recDriftW) ∧
    load (save recDriftW) = Except.ok recDriftW ∧
    ¬(recDriftW.configSnapshot.imageType = cfgW.imageType ∧
      recDriftW.configSnapshot.outputPath = cfgW.outputPath ∧
      recDriftW.configSnapshot.layout = cfgW.layout) ∧
    ((setup 9 cfgW true wsDriftW).1 =
       Except.error (EngineError.configError "configuration drift on resume") ∧
     (setup 9 cfgW true wsDriftW).2 = wsDriftW) :=
  ⟨by decide, rfl, rfl, by decide, by decide,
   resume_config_drift_rejected 9 cfgW wsDriftW (save recDriftW) recDriftW
     (by decide) rfl rfl (by decide) (by decide)⟩

/-- C7: on a workspace whose lock is free, a first Setup succeeds; a second
Setup against the workspace the first one claimed fails with
`WorkspaceBusyError` and leaves that workspace exactly as the first run
left it, so the first run is unaffected and proceeds normally. -/
theorem concurrent_setup_second_busy
    (rid1 rid2 : Nat) (cfg1 cfg2 : BuildConfiguration) (r2 : Bool)
    (ws0 : Workspace)
    (hval1 : validateLayout cfg1.layout = Except.ok ())
    (hlock0 : ws0.lockHeldBy = none)
    (hval2 : validateLayout cfg2.layout = Except.ok ()) :
    (∃ st1, (setup rid1 cfg1 false ws0).1 = Except.ok st1) ∧
    (setup rid2 cfg2 r2 (setup rid1 cfg1 false ws0).2).1 =
      Except.error EngineError.workspaceBusyError ∧
    (setup rid2 cfg2 r2 (setup rid1 cfg1 false ws0).2).2 =
      (setup rid1 cfg1 false ws0).2 := by
  have h1 : setup rid1 cfg1 false ws0 =
      (Except.ok { stepOrdinal := 0, completedSteps := [], configSnapshot := cfg1 },
       { lockHeldBy := some rid1, dirCreated := true, persisted := none,
         imageFileExists := ws0.imageFileExists }) := by
    simp [setup, hval1, hlock0]
  rw [h1]
  refine ⟨⟨_, rfl⟩, ?_, ?_⟩ <;> simp [setup, hval2]

/-- Witness for C7 with two runs contending for the fresh workspace. -/
theorem concurrent_setup_second_busy_witness :
    validateLayout cfgW.layout = Except.ok () ∧ wsFreshW.lockHeldBy = none ∧
    ((∃ st1, (setup 1 cfgW false wsFreshW).1 = Except.ok st1) ∧
     (setup 2 cfgW false (setup 1 cfgW false wsFreshW).2).1 =
       Except.error EngineError.workspaceBusyError ∧
     (setup 2 cfgW false (setup 1 cfgW false wsFreshW).2).2 =
       (setup 1 cfgW false wsFreshW).2) :=
  ⟨by decide, rfl,
   concurrent_setup_second_busy 1 2 cfgW cfgW false wsFreshW (by decide) rfl (by decide)⟩

/-- C1: after a resume Setup loaded the checkpoint at step k, Run()
invokes only ordinals in [k, N): steps 0..k-1 are never re-invoked; when
Run() succeeds it invokes exactly k..N-1; and the persisted checkpoint
never moves below k, so any later Run() starts at or after k as well. -/
theorem run_after_resume_only_suffix
    (rid : Nat) (cfg : BuildConfiguration) (ws0 ws1 : Workspace)
    (st : WorkState) (catalog : List Step) (k : Nat)
    (hsetup : setup rid cfg true ws0 = (Except.ok st, ws1))
    (hk : st.stepOrdinal = k)
    (hkN : k ≤ catalog.length)
    (hpers : persistedOrdinal ws1 = some k) :
    (∀ i ∈ (run cfg catalog st ws1).2.1, k ≤ i ∧ i < catalog.length) ∧
    (∀ stOut, (run cfg catalog st ws1).1 = Except.ok stOut →
      (run cfg catalog st ws1).2.1 = List.range' k (catalog.length - k)) ∧
    (∃ m, persistedOrdinal (run cfg catalog st ws1).2.2 = some m ∧ k ≤ m) := by
  subst hk
  refine ⟨?_, ?_, ?_⟩
  · intro i hi
    simp only [run] at hi
    have hmem := runAux_inv_mem cfg (catalog.drop st.stepOrdinal)
      st.stepOrdinal st ws1 i hi
    have hlen : (catalog.drop st.stepOrdinal).length =
        catalog.length - st.stepOrdinal := List.length_drop _ _
    rw [hlen] at hmem
    omega
  · intro stOut h
    simp only [run] at h ⊢
    have := runAux_ok_inv cfg (catalog.drop st.stepOrdinal)
      st.stepOrdinal st ws1 stOut h
    rw [this, List.length_drop]
  · simp only [run]
    exact runAux_persisted_mono cfg (catalog.drop st.stepOrdinal)
      st.stepOrdinal st ws1 hpers

/-- Witness for C1: resuming the two-step catalog at checkpoint 1 invokes
only ordinal 1. -/
theorem run_after_resume_only_suffix_witness :
    setup 7 cfgW true wsResumeW = (Except.ok stW, wsRes1W) ∧
    stW.stepOrdinal = 1 ∧ 1 ≤ catalogW.length ∧
    persistedOrdinal wsRes1W = some 1 ∧
    ((∀ i ∈ (run cfgW catalogW stW wsRes1W).2.1, 1 ≤ i ∧ i < catalogW.length) ∧
     (∀ stOut, (run cfgW catalogW stW wsRes1W).1 = Except.ok stOut →
       (run cfgW catalogW stW wsRes1W).2.1 =
         List.range' 1 (catalogW.length - 1)) ∧
     (∃ m, persistedOrdinal (run cfgW catalogW stW wsRes1W).2.2 = some m ∧ 1 ≤ m)) :=
  ⟨by decide, rfl, by decide, by decide,
   run_after_resume_only_suffix 7 cfgW wsResumeW wsRes1W stW catalogW 1
     (by decide) rfl (by decide) (by decide)⟩

/-- C3: when Run() fails it failed at the catalog step at ordinal k + j,
returned a `StepExecutionError` naming that step and wrapping its cause,
invoked nothing past the failed step, and left the persisted checkpoint
exactly at the failed step's ordinal — nothing is persisted past the last
good checkpoint and the ordinal is not advanced. -/
theorem run_failure_stops
    (cfg : BuildConfiguration) (catalog : List Step) (st : WorkState)
    (ws : Workspace) (k : Nat) (e : EngineError)
    (hk : st.stepOrdinal = k)
    (hpers : persistedOrdinal ws = some k)
    (herr : (run cfg catalog st ws).1 = Except.error e) :
    ∃ j, ∃ hj : k + j < catalog.length, ∃ st1 cause,
      e = EngineError.stepExecutionError (catalog.get ⟨k + j, hj⟩).name cause ∧
      (catalog.get ⟨k + j, hj⟩).fn cfg st1 = Except.error cause ∧
      (run cfg catalog st ws).2.1 = List.range' k (j + 1) ∧
      persistedOrdinal (run cfg catalog st ws).2.2 = some (k + j) := by
  subst hk
  simp only [run] at herr ⊢
  obtain ⟨j, hj, st1, cause, hee, hfail, hiv, hpp⟩ :=
    runAux_error_spec cfg (catalog.drop st.stepOrdinal) st.stepOrdinal st ws e
      (runAux cfg (catalog.drop st.stepOrdinal) st.stepOrdinal st ws).2.1
      (runAux cfg (catalog.drop st.stepOrdinal) st.stepOrdinal st ws).2.2
      hpers (by rw [← herr])
  have hlen : (catalog.drop st.stepOrdinal).length =
      catalog.length - st.stepOrdinal := List.length_drop _ _
  have hj' : st.stepOrdinal + j < catalog.length := by omega
  have hget : (catalog.drop st.stepOrdinal).get ⟨j, hj⟩ =
      catalog.get ⟨st.stepOrdinal + j, hj'⟩ := by
    simp [List.get_eq_getElem, List.getElem_drop]
  exact ⟨j, hj', st1, cause, by rw [← hget]; exact hee,
    by rw [← hget]; exact hfail, hiv, hpp⟩

/-- Witness for C3: the catalog whose second step fails at ordinal 1. -/
theorem run_failure_stops_witness :
    st0W.stepOrdinal = 0 ∧
    persistedOrdinal wsRun0W = some 0 ∧
    (run cfgW catalogFailW st0W wsRun0W).1 =
      Except.error (EngineError.stepExecutionError "populate" "mount failed") ∧
    (∃ j, ∃ hj : 0 + j < catalogFailW.length, ∃ st1 cause,
      EngineError.stepExecutionError "populate" "mount failed" =
        EngineError.stepExecutionError (catalogFailW.get ⟨0 + j, hj⟩).name cause ∧
      (catalogFailW.get ⟨0 + j, hj⟩).fn cfgW st1 = Except.error cause ∧
      (run cfgW catalogFailW st0W wsRun0W).2.1 = List.range' 0 (j + 1) ∧
      persistedOrdinal (run cfgW catalogFailW st0W wsRun0W).2.2 = some (0 + j)) :=
  ⟨rfl, by decide, by decide,
   run_failure_stops cfgW catalogFailW st0W wsRun0W 0
     (EngineError.stepExecutionError "populate" "mount failed")
     rfl (by decide) (by decide)⟩

/-- C2 counterexample: with Run failed and a cleanup problem pending, the
driver prints only the Run error and exits 1 — Teardown is never invoked,
so no `CleanupError` is surfaced alongside the Run failure. -/
theorem run_failure_hides_cleanup_error :
    phFailW.runErr = some "run failure" ∧
    phFailW.teardownErr = some "cleanup failure" ∧
    (executeStateMachine "snap" phFailW).printedErrors = ["run failure"] ∧
    Phase.teardownPhase ∉ (executeStateMachine "snap" phFailW).phasesInvoked ∧
    (executeStateMachine "snap" phFailW).exitCode = some 1 := by decide

/-- C2 amended: when Run() fails, `executeStateMachine` prints the Run()
error and exits with status 1 without invoking Teardown(); the Run() error
alone determines the final outcome, and a pending cleanup problem is
neither triggered nor surfaced. -/
theorem run_failure_skips_teardown
    (it : String) (ph : EnginePhaseResults) (e : String)
    (hit : it = "snap" ∨ it = "classic")
    (hs : ph.setupErr = none)
    (hr : ph.runErr = some e) :
    (executeStateMachine it ph).printedErrors = [e] ∧
    (executeStateMachine it ph).exitCode = some 1 ∧
    Phase.teardownPhase ∉ (executeStateMachine it ph).phasesInvoked := by
  rcases hit with h | h <;> subst h <;>
    simp [executeStateMachine, dispatchStateMachine, hs, hr]

/-- Witness for the amended C2 at the snap machine with both errors set. -/
theorem run_failure_skips_teardown_witness :
    ("snap" = "snap" ∨ "snap" = "classic") ∧
    phFailW.setupErr = none ∧ phFailW.runErr = some "run failure" ∧
    ((executeStateMachine "snap" phFailW).printedErrors = ["run failure"] ∧
     (executeStateMachine "snap" phFailW).exitCode = some 1 ∧
     Phase.teardownPhase ∉ (executeStateMachine "snap" phFailW).phasesInvoked) :=
  ⟨Or.inl rfl, rfl, rfl,
   run_failure_skips_teardown "snap" phFailW "run failure" (Or.inl rfl) rfl rfl⟩

/-- C8: `executeStateMachine` leaves the state machine interface nil — and
dereferences that nil interface at the Setup call — exactly when the image
type is neither "snap" nor "classic" (the empty string included). -/
theorem executeStateMachine_nil_for_unknown_type
    (it : String) (ph : EnginePhaseResults) :
    ((executeStateMachine it ph).constructed = none ↔
      ¬(it = "snap" ∨ it = "classic")) ∧
    ((executeStateMachine it ph).panicked = true ↔
      ¬(it = "snap" ∨ it = "classic")) := by
  rcases ph with ⟨se, re, te⟩
  by_cases h1 : it = "snap"
  · subst h1
    cases se <;> cases re <;> cases te <;>
      simp [executeStateMachine, dispatchStateMachine]
  · by_cases h2 : it = "classic"
    · subst h2
      cases se <;> cases re <;> cases te <;>
        simp [executeStateMachine, dispatchStateMachine]
    · simp [executeStateMachine, dispatchStateMachine, h1, h2]

/-- C9: on a missing-command parse error, `main` continues without an
error exit exactly when the resume or version option was given; otherwise
it prints the captured stderr and exits with status 1. -/
theorem main_missing_command_tolerated_iff
    (i : MainInput)
    (h : i.parseErr = ParseOutcome.errCommandRequired) :
    (isErrorExit (mainRun i) = false ↔ (i.resume = true ∨ i.version = true)) ∧
    (i.resume = false → i.version = false →
      mainRun i = MainOutcome.exitCmdRequired i.capturedStderr ∧
      mainExitCode (mainRun i) = some 1) := by
  rcases i with ⟨pe, res, ver, bv, sv, ac, cs⟩
  simp only at h
  subst h
  cases res <;> cases ver <;>
    simp [mainRun, afterParse, isErrorExit, mainExitCode, imageTypeOf]

/-- Witness for C9 with neither resume nor version given. -/
theorem main_missing_command_tolerated_iff_witness :
    c9InputW.parseErr = ParseOutcome.errCommandRequired ∧
    ((isErrorExit (mainRun c9InputW) = false ↔
       (c9InputW.resume = true ∨ c9InputW.version = true)) ∧
     (c9InputW.resume = false → c9InputW.version = false →
       mainRun c9InputW = MainOutcome.exitCmdRequired c9InputW.capturedStderr ∧
       mainExitCode (mainRun c9InputW) = some 1)) :=
  ⟨rfl, main_missing_command_tolerated_iff c9InputW rfl⟩

/-- C10 counterexample: with the version option set but parsing failing
with a generic flags error, `main` exits with status 1 and never prints
the version. -/
theorem version_flag_not_honored_on_flags_error :
    c10BadW.version = true ∧
    mainRun c10BadW = MainOutcome.exitFlagsError ∧
    mainExitCode (mainRun c10BadW) = some 1 := by decide

/-- C10 amended: whenever the version option is set and option parsing did
not itself force an exit (it succeeded, failed with the tolerated
missing-command error, or failed with a non-flags error), `main` prints
the version string — falling back to `SNAP_VERSION` when the build-time
version is empty — and exits with status 0 before any state machine is
constructed. -/
theorem main_version_exits_zero_before_statemachine
    (i : MainInput)
    (hv : i.version = true)
    (hp : i.parseErr = ParseOutcome.ok ∨
          i.parseErr = ParseOutcome.errCommandRequired ∨
          i.parseErr = ParseOutcome.nonFlagsError) :
    mainRun i = MainOutcome.exitVersion
      (if i.buildVersion = "" then i.snapVersionEnv else i.buildVersion) ∧
    mainExitCode (mainRun i) = some 0 ∧
    smConstructed (mainRun i) = false := by
  rcases i with ⟨pe, res, ver, bv, sv, ac, cs⟩
  simp only at hv
  subst hv
  rcases hp with h | h | h <;> (simp only at h; subst h) <;>
    cases res <;> simp [mainRun, afterParse, mainExitCode, smConstructed]

/-- Witness for the amended C10: clean parse, empty build version, the
snap environment supplies "2.0". -/
theorem main_version_exits_zero_before_statemachine_witness :
    c10GoodW.version = true ∧
    (c10GoodW.parseErr = ParseOutcome.ok ∨
     c10GoodW.parseErr = ParseOutcome.errCommandRequired ∨
     c10GoodW.parseErr = ParseOutcome.nonFlagsError) ∧
    (mainRun c10GoodW = MainOutcome.exitVersion
       (if c10GoodW.buildVersion = "" then c10GoodW.snapVersionEnv
        else c10GoodW.buildVersion) ∧
     mainExitCode (mainRun c10GoodW) = some 0 ∧
     smConstructed (mainRun c10GoodW) = false) :=
  ⟨rfl, Or.inl rfl,
   main_version_exits_zero_before_statemachine c10GoodW rfl (Or.inl rfl)⟩

end UbuntuImage
